import Mathlib

/-!
Shallow embedding of the plumbing pipe sizer's numeric core:
`fluid_dynamic_equations.py` (Reynolds number, Colebrook-White friction
factor, Darcy-Weisbach head loss, velocity root-find) and
`gpm_and_fixture_units.py` (piecewise-linear fixture-unit interpolation
over the static UPC table).

Python floats are idealised as rationals.  The external numeric
primitives `np.sqrt`, `np.log10` and `scipy.optimize.fsolve` are not part
of this repository; they are modelled as explicit function parameters, so
every theorem below quantifies over (or instantiates) their behaviour.

Batteries marks the `Rat` arithmetic operations irreducible, which blocks
`decide` on concrete rational computations; re-marking them semireducible
only affects elaboration, not the kernel check.
-/

set_option allowUnsafeReducibility true in
attribute [semireducible] Rat.add Rat.mul Rat.inv Rat.sub Rat.ofScientific

set_option maxRecDepth 8000

namespace PipeSizer

/-- Observable outcome of one call to the external root-finder
`scipy.optimize.fsolve`: the final iterate (`root`, the sole entry of the
returned solution array) together with the convergence flag that scipy only
exposes when `full_output` is requested.  The repository never requests it. -/
structure FsolveResult where
  root : ℚ
  converged : Bool
deriving DecidableEq

/-- Type of the modelled `scipy.optimize.fsolve`: a residual function and an
initial guess yield an `FsolveResult`. -/
abbrev Fsolve := (ℚ → ℚ) → ℚ → FsolveResult

/-- `GRAVITY = 32.174  # ft/s^2` from `fluid_dynamic_equations.py`. -/
def GRAVITY : ℚ := 32.174

/-- `reynolds_num(velocity, diam_inch, kin_visc)`:
`(velocity * (diam_inch / 12.0)) / kin_visc`. -/
def reynolds_num (velocity diam_inch kin_visc : ℚ) : ℚ :=
  velocity * (diam_inch / 12) / kin_visc

/-- The Colebrook-White residual closure defined inside
`friction_factor_solver`, with `np.sqrt` and `np.log10` passed in as the
modelled numeric primitives:
`1.0/np.sqrt(f) + 2.0*np.log10((epsilon/(3.7*D_ft)) + (2.51/(re*np.sqrt(f))))`. -/
def colebrook_white (np_sqrt np_log10 : ℚ → ℚ) (epsilon D_ft re f : ℚ) : ℚ :=
  1 / np_sqrt f + 2 * np_log10 (epsilon / (3.7 * D_ft) + 2.51 / (re * np_sqrt f))

/-- `friction_factor_solver(re, epsilon, diam_inch, initial_guess=0.02)`:
laminar branch `64/re` when `re < 2000`, otherwise the first entry of the
array returned by `fsolve(colebrook_white, initial_guess)` - the convergence
status is discarded. -/
def friction_factor_solver (np_sqrt np_log10 : ℚ → ℚ) (fsolve : Fsolve)
    (re epsilon diam_inch initial_guess : ℚ) : ℚ :=
  if re < 2000 then 64 / re
  else (fsolve (colebrook_white np_sqrt np_log10 epsilon (diam_inch / 12) re)
        initial_guess).root

/-- `darcy_weisbach_pressure_drop(f, velocity, diam_inch)`:
`(f * 100.0 * velocity ** 2) / (D_ft * 2.0 * GRAVITY)` with
`D_ft = diam_inch / 12.0`. -/
def darcy_weisbach_pressure_drop (f velocity diam_inch : ℚ) : ℚ :=
  f * 100 * velocity ^ 2 / (diam_inch / 12 * 2 * GRAVITY)

/-- The residual closure `friction_rate_residual(velocity)` defined inside
`solve_velocity_given_pressure_drop`: Reynolds number, then friction factor
(with the inner call using the default guess `0.02`), then Darcy-Weisbach
head loss, minus the target. -/
def friction_rate_residual (np_sqrt np_log10 : ℚ → ℚ) (fsolve : Fsolve)
    (friction_rate_target diam_inch epsilon kin_visc velocity : ℚ) : ℚ :=
  darcy_weisbach_pressure_drop
    (friction_factor_solver np_sqrt np_log10 fsolve
      (reynolds_num velocity diam_inch kin_visc) epsilon diam_inch 0.02)
    velocity diam_inch
  - friction_rate_target

/-- `solve_velocity_given_pressure_drop(friction_rate_target, diam_inch,
epsilon, kin_visc, velocity_guess=5.0)`: returns
`float(fsolve(friction_rate_residual, velocity_guess)[0])` - again the
convergence status of `fsolve` is discarded. -/
def solve_velocity_given_pressure_drop (np_sqrt np_log10 : ℚ → ℚ)
    (fsolve : Fsolve)
    (friction_rate_target diam_inch epsilon kin_visc velocity_guess : ℚ) : ℚ :=
  (fsolve
    (friction_rate_residual np_sqrt np_log10 fsolve friction_rate_target
      diam_inch epsilon kin_visc)
    velocity_guess).root

/-- One row `(GPM, Tank Fixture Units, Valve Fixture Units)` of the table in
`gpm_and_fixture_units.py`; `None` valve entries become `none`. -/
structure FixtureRow where
  gpm : ℚ
  tank : ℤ
  valve : Option ℤ
deriving DecidableEq

/-- Rows 1 of 5 of the `fixture_data` table (see `fixture_data`). -/
def fixture_rows_1 : List FixtureRow :=
  [
    ⟨1, 0, none⟩, ⟨2, 1, none⟩, ⟨3, 3, none⟩, ⟨4, 4, none⟩, ⟨5, 6, none⟩,
    ⟨6, 7, none⟩, ⟨7, 8, none⟩, ⟨8, 10, none⟩, ⟨9, 12, none⟩, ⟨10, 13, none⟩,
    ⟨11, 15, none⟩, ⟨12, 16, none⟩, ⟨13, 18, none⟩, ⟨14, 20, none⟩, ⟨15, 21, none⟩,
    ⟨16, 23, none⟩, ⟨17, 24, none⟩, ⟨18, 26, none⟩, ⟨19, 28, none⟩, ⟨20, 30, none⟩,
    ⟨21, 32, none⟩, ⟨22, 34, some 5⟩, ⟨23, 36, some 6⟩, ⟨24, 39, some 7⟩, ⟨25, 42, some 8⟩
  ]

/-- Rows 2 of 5 of the `fixture_data` table (see `fixture_data`). -/
def fixture_rows_2 : List FixtureRow :=
  [
    ⟨26, 44, some 9⟩, ⟨27, 46, some 10⟩, ⟨28, 49, some 11⟩, ⟨29, 51, some 12⟩, ⟨30, 54, some 13⟩,
    ⟨31, 56, some 14⟩, ⟨32, 58, some 15⟩, ⟨33, 60, some 16⟩, ⟨34, 63, some 18⟩, ⟨35, 66, some 20⟩,
    ⟨36, 69, some 21⟩, ⟨37, 74, some 23⟩, ⟨38, 78, some 25⟩, ⟨39, 83, some 26⟩, ⟨40, 86, some 28⟩,
    ⟨41, 90, some 30⟩, ⟨42, 95, some 31⟩, ⟨43, 99, some 33⟩, ⟨44, 103, some 35⟩, ⟨45, 107, some 37⟩,
    ⟨46, 111, some 39⟩, ⟨47, 115, some 42⟩, ⟨48, 119, some 44⟩, ⟨49, 123, some 46⟩, ⟨50, 127, some 48⟩
  ]

/-- Rows 3 of 5 of the `fixture_data` table (see `fixture_data`). -/
def fixture_rows_3 : List FixtureRow :=
  [
    ⟨51, 130, some 50⟩, ⟨52, 135, some 52⟩, ⟨53, 141, some 54⟩, ⟨54, 146, some 57⟩, ⟨55, 151, some 60⟩,
    ⟨56, 155, some 63⟩, ⟨57, 160, some 66⟩, ⟨58, 165, some 69⟩, ⟨59, 170, some 73⟩, ⟨60, 175, some 76⟩,
    ⟨62, 185, some 82⟩, ⟨64, 195, some 88⟩, ⟨66, 205, some 95⟩, ⟨68, 215, some 102⟩, ⟨70, 225, some 108⟩,
    ⟨72, 236, some 116⟩, ⟨74, 245, some 124⟩, ⟨76, 254, some 132⟩, ⟨78, 264, some 140⟩, ⟨80, 275, some 148⟩,
    ⟨82, 284, some 158⟩, ⟨84, 294, some 168⟩, ⟨86, 305, some 176⟩, ⟨88, 315, some 186⟩, ⟨90, 326, some 195⟩
  ]

/-- Rows 4 of 5 of the `fixture_data` table (see `fixture_data`). -/
def fixture_rows_4 : List FixtureRow :=
  [
    ⟨92, 337, some 205⟩, ⟨94, 348, some 214⟩, ⟨96, 359, some 223⟩, ⟨98, 370, some 234⟩, ⟨100, 380, some 245⟩,
    ⟨105, 405, some 270⟩, ⟨110, 431, some 295⟩, ⟨115, 455, some 329⟩, ⟨120, 479, some 365⟩, ⟨125, 506, some 396⟩,
    ⟨130, 533, some 430⟩, ⟨135, 559, some 460⟩, ⟨140, 585, some 490⟩, ⟨145, 611, some 521⟩, ⟨150, 638, some 559⟩,
    ⟨155, 665, some 596⟩, ⟨160, 692, some 631⟩, ⟨165, 719, some 666⟩, ⟨170, 748, some 700⟩, ⟨175, 778, some 739⟩,
    ⟨180, 809, some 775⟩, ⟨185, 840, some 811⟩, ⟨190, 874, some 850⟩, ⟨200, 945, some 931⟩, ⟨210, 1018, some 1009⟩
  ]

/-- Rows 5 of 5 of the `fixture_data` table (see `fixture_data`). -/
def fixture_rows_5 : List FixtureRow :=
  [
    ⟨220, 1091, some 1091⟩, ⟨230, 1173, some 1173⟩, ⟨240, 1254, some 1254⟩, ⟨250, 1335, some 1335⟩, ⟨260, 1418, some 1418⟩,
    ⟨270, 1500, some 1500⟩, ⟨280, 2583, some 2583⟩, ⟨290, 1668, some 1668⟩, ⟨300, 1755, some 1755⟩, ⟨310, 1845, some 1845⟩,
    ⟨320, 1926, some 1926⟩, ⟨330, 2018, some 2018⟩, ⟨340, 2110, some 2110⟩, ⟨350, 2204, some 2204⟩, ⟨360, 2298, some 2298⟩,
    ⟨370, 2388, some 2388⟩, ⟨380, 2480, some 2480⟩, ⟨390, 2575, some 2575⟩, ⟨400, 2670, some 2670⟩, ⟨410, 2765, some 2765⟩,
    ⟨420, 2862, some 2862⟩, ⟨430, 2960, some 2960⟩, ⟨440, 3060, some 3060⟩, ⟨450, 3150, some 3150⟩, ⟨500, 3620, some 3620⟩
  ]

/-- The 125-row `fixture_data` table from `gpm_and_fixture_units.py`
(2021 UPC training manual Figure A 108.1B), transcribed verbatim; split into
five chunks purely to keep elaboration linear. -/
def fixture_data : List FixtureRow :=
  fixture_rows_1 ++ fixture_rows_2 ++ fixture_rows_3 ++ fixture_rows_4 ++ fixture_rows_5

/-- The possible results of `interpolate_fixture_units`.  The Python function
returns either an `int` (`num`) or one of four distinct strings:
`"Out of Range."` (`outOfRange`),
`"Out of range. Use next valid pipe size."` (`nextValidPipe`),
`"Error: Invalid flush type."` (`invalidFlushType`),
`"Error: Unable to calculate fixture units."` (`unable`). -/
inductive FUResult where
  | num : ℤ → FUResult
  | outOfRange : FUResult
  | nextValidPipe : FUResult
  | invalidFlushType : FUResult
  | unable : FUResult
deriving DecidableEq

/-- Python's `str.lower()`, modelled ASCII-faithfully: `Char.toLower` mapped
over the string's characters (extensionally the same as `String.toLower`,
but stated over the character list so that it evaluates by reduction). -/
def pyLower (s : String) : String :=
  ⟨s.data.map Char.toLower⟩

/-- The body executed for a bracketing pair `gpm1 <= gpm_input <= gpm2`
inside the loop of `interpolate_fixture_units`: interpolate the tank column,
or the valve column with the `None` policy, or report an invalid flush type.
`floor` is `math.floor`; `.lower()` is modelled by `pyLower`. -/
def bracketValue (r1 r2 : FixtureRow) (gpm_input : ℚ) (flush_type : String) :
    FUResult :=
  if pyLower flush_type = "tank" then
    .num (Rat.floor ((r1.tank : ℚ) +
      ((r2.tank : ℚ) - (r1.tank : ℚ)) * (gpm_input - r1.gpm) / (r2.gpm - r1.gpm)))
  else if pyLower flush_type = "valve" then
    match r1.valve, r2.valve with
    | some v1, some v2 =>
        .num (Rat.floor ((v1 : ℚ) +
          ((v2 : ℚ) - (v1 : ℚ)) * (gpm_input - r1.gpm) / (r2.gpm - r1.gpm)))
    | some v1, none => .num v1
    | none, _ => .nextValidPipe
  else .invalidFlushType

/-- The scan `for i in range(len(fixture_data) - 1)` of
`interpolate_fixture_units`: successive pairs of consecutive rows are tried;
the first pair with `gpm1 <= gpm_input <= gpm2` is evaluated by
`bracketValue`; falling off the end returns the final error string. -/
def interpSearch (gpm_input : ℚ) (flush_type : String) :
    List FixtureRow → FUResult
  | r1 :: r2 :: rest =>
    if r1.gpm ≤ gpm_input ∧ gpm_input ≤ r2.gpm then
      bracketValue r1 r2 gpm_input flush_type
    else interpSearch gpm_input flush_type (r2 :: rest)
  | _ => .unable

/-- `interpolate_fixture_units(gpm_input, flush_type)`: the range guard
`gpm_input < fixture_data[0][0] or gpm_input > fixture_data[-1][0]`
followed by the bracketing scan. -/
def interpolate_fixture_units (gpm_input : ℚ) (flush_type : String) : FUResult :=
  if gpm_input < (fixture_data.headD ⟨0, 0, none⟩).gpm ∨
     gpm_input > (fixture_data.getLastD ⟨0, 0, none⟩).gpm then
    .outOfRange
  else interpSearch gpm_input flush_type fixture_data

/-- The consecutive pair of rows selected by the scan of
`interpolate_fixture_units`: the first pair bracketing `gpm_input`.  Used to
state which bracket the loop commits to. -/
def findBracket (gpm_input : ℚ) : List FixtureRow → Option (FixtureRow × FixtureRow)
  | r1 :: r2 :: rest =>
    if r1.gpm ≤ gpm_input ∧ gpm_input ≤ r2.gpm then some (r1, r2)
    else findBracket gpm_input (r2 :: rest)
  | _ => none

/-- Consecutive valve entries are non-decreasing whenever both are defined. -/
def valveMono (a b : Option ℤ) : Bool :=
  match a, b with
  | some v1, some v2 => v1 ≤ v2
  | _, _ => true

/-- A modelled `fsolve` behaviour that fails to converge: it gives up and
hands back an arbitrary last iterate (`42`) with `converged := false`,
mirroring scipy returning its last iterate when `ier != 1`. -/
def stalledFsolve : Fsolve := fun _ _ => ⟨42, false⟩

/-- Boolean check that `p` holds for every pair of consecutive elements;
used to evaluate chain invariants of the table by reduction. -/
def chainB {α : Type} (p : α → α → Bool) : List α → Bool
  | a :: b :: t => p a b && chainB p (b :: t)
  | _ => true

/-- Transitivity of the strictly-increasing-GPM relation on table rows. -/
instance gpmLtTrans : IsTrans FixtureRow (fun r s => r.gpm < s.gpm) :=
  ⟨fun _ _ _ h1 h2 => lt_trans h1 h2⟩

end PipeSizer


namespace PipeSizer

/-- Unfolding equation of `findBracket` on a list with at least two rows. -/
theorem findBracket_cons2 (x : ℚ) (r1 r2 : FixtureRow) (rest : List FixtureRow) :
    findBracket x (r1 :: r2 :: rest) =
      if r1.gpm ≤ x ∧ x ≤ r2.gpm then some (r1, r2)
      else findBracket x (r2 :: rest) := rfl

/-- Unfolding equation of `interpSearch` on a list with at least two rows. -/
theorem interpSearch_cons2 (x : ℚ) (ft : String) (r1 r2 : FixtureRow)
    (rest : List FixtureRow) :
    interpSearch x ft (r1 :: r2 :: rest) =
      if r1.gpm ≤ x ∧ x ≤ r2.gpm then bracketValue r1 r2 x ft
      else interpSearch x ft (r2 :: rest) := rfl

/-- `chainB` with a decidable relation evaluates `List.Chain'`. -/
theorem chainB_iff {α : Type} (R : α → α → Prop) [DecidableRel R] :
    ∀ l : List α, chainB (fun a b => decide (R a b)) l = true ↔ List.Chain' R l
  | [] => by simp [chainB]
  | [a] => by simp [chainB]
  | a :: b :: t => by
    rw [List.chain'_cons]
    simp [chainB, Bool.and_eq_true, decide_eq_true_iff, chainB_iff R (b :: t)]

/-- The scan of `interpolate_fixture_units` evaluates the first bracketing
pair found by `findBracket`. -/
theorem interpSearch_found {x : ℚ} {ft : String} :
    ∀ {l : List FixtureRow} {r1 r2 : FixtureRow},
      findBracket x l = some (r1, r2) →
      interpSearch x ft l = bracketValue r1 r2 x ft
  | [], r1, r2, h => by simp [findBracket] at h
  | [a], r1, r2, h => by simp [findBracket] at h
  | a :: b :: t, r1, r2, h => by
    by_cases hc : a.gpm ≤ x ∧ x ≤ b.gpm
    · rw [findBracket_cons2, if_pos hc] at h
      obtain ⟨rfl, rfl⟩ : a = r1 ∧ b = r2 := by
        constructor <;> injection h with h2 <;> cases h2 <;> rfl
      rw [interpSearch_cons2, if_pos hc]
    · rw [findBracket_cons2, if_neg hc] at h
      rw [interpSearch_cons2, if_neg hc]
      exact interpSearch_found h

/-- If `x` lies between the first and the last flow of the list, the scan
finds a bracketing pair. -/
theorem findBracket_isSome_aux :
    ∀ (l : List FixtureRow) (a : FixtureRow) (x : ℚ), l ≠ [] →
      a.gpm ≤ x → x ≤ (l.getLastD a).gpm → (findBracket x (a :: l)).isSome = true
  | [], _, _, hne, _, _ => absurd rfl hne
  | b :: t, a, x, _, h1, h2 => by
    by_cases hc : a.gpm ≤ x ∧ x ≤ b.gpm
    · rw [findBracket_cons2, if_pos hc]
      rfl
    · have hbx : b.gpm ≤ x := by
        rcases not_and_or.mp hc with h | h
        · exact absurd h1 h
        · exact le_of_lt (not_le.mp h)
      cases t with
      | nil =>
        exfalso
        exact hc ⟨h1, by simpa [List.getLastD_cons] using h2⟩
      | cons c t2 =>
        rw [findBracket_cons2, if_neg hc]
        exact findBracket_isSome_aux (c :: t2) b x (by simp) hbx
          (by simpa [List.getLastD_cons] using h2)

/-- The pair returned by `findBracket` is a consecutive pair of the list and
brackets `x`. -/
theorem findBracket_bounds {x : ℚ} :
    ∀ {l : List FixtureRow} {r1 r2 : FixtureRow},
      findBracket x l = some (r1, r2) →
      (r1, r2) ∈ l.zip l.tail ∧ r1.gpm ≤ x ∧ x ≤ r2.gpm
  | [], r1, r2, h => by simp [findBracket] at h
  | [a], r1, r2, h => by simp [findBracket] at h
  | a :: b :: t, r1, r2, h => by
    by_cases hc : a.gpm ≤ x ∧ x ≤ b.gpm
    · rw [findBracket_cons2, if_pos hc] at h
      obtain ⟨rfl, rfl⟩ : a = r1 ∧ b = r2 := by
        constructor <;> injection h with h2 <;> cases h2 <;> rfl
      exact ⟨by simp [List.zip_cons_cons], hc.1, hc.2⟩
    · rw [findBracket_cons2, if_neg hc] at h
      obtain ⟨hmem, hb⟩ := findBracket_bounds h
      refine ⟨?_, hb⟩
      simp only [List.tail_cons, List.zip_cons_cons]
      exact List.mem_cons_of_mem _ (by simpa using hmem)


/-- The first table flow is 1 GPM (`fixture_data[0][0]`). -/
theorem fixture_data_head : (fixture_data.headD ⟨0, 0, none⟩).gpm = 1 := by decide

/-- The last table flow is 500 GPM (`fixture_data[-1][0]`). -/
theorem fixture_data_last : (fixture_data.getLastD ⟨0, 0, none⟩).gpm = 500 := by decide

/-- Every flow in the table lies between 1 and 500 GPM. -/
theorem fixture_data_gpm_bounds : ∀ r ∈ fixture_data, 1 ≤ r.gpm ∧ r.gpm ≤ 500 := by decide

/-- The table flows are strictly increasing. -/
theorem fixture_data_chain_gpm :
    List.Chain' (fun r s : FixtureRow => r.gpm < s.gpm) fixture_data :=
  (chainB_iff (fun r s : FixtureRow => r.gpm < s.gpm) fixture_data).mp (by decide)

/-- For an in-range flow, `interpolate_fixture_units` evaluates the branch
body at the first bracketing pair of consecutive rows. -/
theorem interp_found (g : ℚ) (ft : String) (h1 : 1 ≤ g) (h2 : g ≤ 500) :
    ∃ r1 r2 : FixtureRow, findBracket g fixture_data = some (r1, r2) ∧
      interpolate_fixture_units g ft = bracketValue r1 r2 g ft := by
  have hsome : (findBracket g fixture_data).isSome = true := by
    have hd : fixture_data = (⟨1, 0, none⟩ : FixtureRow) :: fixture_data.tail := by
      decide
    rw [hd]
    apply findBracket_isSome_aux fixture_data.tail ⟨1, 0, none⟩ g (by decide)
    · exact h1
    · have : (fixture_data.tail.getLastD ⟨1, 0, none⟩).gpm = 500 := by decide
      rw [this]
      exact h2
  obtain ⟨p, hp⟩ := Option.isSome_iff_exists.mp hsome
  refine ⟨p.1, p.2, by rwa [show (p.1, p.2) = p from rfl], ?_⟩
  have hguard : ¬ (g < (fixture_data.headD ⟨0, 0, none⟩).gpm ∨
      g > (fixture_data.getLastD ⟨0, 0, none⟩).gpm) := by
    rw [fixture_data_head, fixture_data_last]
    push_neg
    exact ⟨h1, h2⟩
  rw [interpolate_fixture_units, if_neg hguard]
  exact interpSearch_found (by rwa [show (p.1, p.2) = p from rfl])

/-- The tank branch of the bracket body. -/
theorem bracketValue_tank (r1 r2 : FixtureRow) (g : ℚ) (ft : String)
    (h : pyLower ft = "tank") :
    bracketValue r1 r2 g ft = .num (Rat.floor ((r1.tank : ℚ) +
      ((r2.tank : ℚ) - (r1.tank : ℚ)) * (g - r1.gpm) / (r2.gpm - r1.gpm))) := by
  rw [bracketValue, if_pos h]

/-- The invalid-flush-type branch of the bracket body. -/
theorem bracketValue_invalid (r1 r2 : FixtureRow) (g : ℚ) (ft : String)
    (ht : pyLower ft ≠ "tank") (hv : pyLower ft ≠ "valve") :
    bracketValue r1 r2 g ft = .invalidFlushType := by
  rw [bracketValue, if_neg ht, if_neg hv]

/-- The valve branch of the bracket body never reports an invalid flush
type. -/
theorem bracketValue_valve_ne_invalid (r1 r2 : FixtureRow) (g : ℚ) (ft : String)
    (h : pyLower ft = "valve") :
    bracketValue r1 r2 g ft ≠ .invalidFlushType := by
  have ht : pyLower ft ≠ "tank" := by rw [h]; decide
  rw [bracketValue, if_neg ht, if_pos h]
  cases r1.valve <;> cases r2.valve <;> simp

/-- In range, an unrecognised flush type reaches the final `else` branch. -/
theorem interp_invalid_mode (g : ℚ) (ft : String) (h1 : 1 ≤ g) (h2 : g ≤ 500)
    (ht : pyLower ft ≠ "tank") (hv : pyLower ft ≠ "valve") :
    interpolate_fixture_units g ft = .invalidFlushType := by
  obtain ⟨r1, r2, _, he⟩ := interp_found g ft h1 h2
  rw [he, bracketValue_invalid r1 r2 g ft ht hv]


/-- For an in-range flow, `interpolate_fixture_units` evaluates the bracket
body at the pair selected by `findBracket`. -/
theorem interp_eq_bracketValue (g : ℚ) (ft : String) {r1 r2 : FixtureRow}
    (hb : findBracket g fixture_data = some (r1, r2))
    (h1 : 1 ≤ g) (h2 : g ≤ 500) :
    interpolate_fixture_units g ft = bracketValue r1 r2 g ft := by
  have hguard : ¬ (g < (fixture_data.headD ⟨0, 0, none⟩).gpm ∨
      g > (fixture_data.getLastD ⟨0, 0, none⟩).gpm) := by
    rw [fixture_data_head, fixture_data_last]
    push_neg
    exact ⟨h1, h2⟩
  rw [interpolate_fixture_units, if_neg hguard]
  exact interpSearch_found hb

/-- A flow equal to the right endpoint of a consecutive pair is bracketed by
the FIRST pair ending there, provided the flows are strictly increasing. -/
theorem findBracket_at_index :
    ∀ (l : List FixtureRow),
      List.Chain' (fun r s : FixtureRow => r.gpm < s.gpm) l →
      ∀ (i : ℕ) (h2 : i + 1 < l.length),
        findBracket ((l.get ⟨i + 1, h2⟩).gpm) l =
          some (l.get ⟨i, Nat.lt_of_succ_lt h2⟩, l.get ⟨i + 1, h2⟩)
  | [], _, i, h2 => absurd h2 (by simp)
  | [a], _, i, h2 => by
    simp only [List.length_singleton] at h2
    exact absurd h2 (by omega)
  | a :: b :: t, hch, 0, h2 => by
    have hab : a.gpm < b.gpm := (List.chain'_cons.mp hch).1
    show findBracket b.gpm (a :: b :: t) = some (a, b)
    rw [findBracket_cons2, if_pos ⟨le_of_lt hab, le_refl b.gpm⟩]
  | a :: b :: t, hch, i + 1, h2 => by
    have h2t : i + 1 < (b :: t).length := by
      simp only [List.length_cons] at h2 ⊢
      omega
    have hch2 : List.Chain' (fun r s : FixtureRow => r.gpm < s.gpm) (b :: t) :=
      (List.chain'_cons.mp hch).2
    have hp : List.Pairwise (fun r s : FixtureRow => r.gpm < s.gpm) (b :: t) :=
      List.chain'_iff_pairwise.mp hch2
    have hbx : b.gpm < ((b :: t).get ⟨i + 1, h2t⟩).gpm := by
      have h0lt : (0 : ℕ) < (b :: t).length := by simp
      have h0 : (⟨0, h0lt⟩ : Fin (b :: t).length) < ⟨i + 1, h2t⟩ := by
        simp only [Fin.lt_def]
        omega
      simpa using List.pairwise_iff_get.mp hp ⟨0, h0lt⟩ ⟨i + 1, h2t⟩ h0
    have hget : (a :: b :: t).get ⟨i + 1 + 1, h2⟩ = (b :: t).get ⟨i + 1, h2t⟩ := rfl
    rw [hget, findBracket_cons2, if_neg (fun hc => absurd hbx (not_lt.mpr hc.2)),
      findBracket_at_index (b :: t) hch2 i h2t]
    rfl

/-- `bracketValue` only depends on the flush type through `pyLower`. -/
theorem bracketValue_mode_congr (r1 r2 : FixtureRow) (x : ℚ) {s t : String}
    (h : pyLower s = pyLower t) :
    bracketValue r1 r2 x s = bracketValue r1 r2 x t := by
  simp only [bracketValue, h]

/-- The scan only depends on the flush type through `pyLower`. -/
theorem interpSearch_mode_congr {s t : String} (h : pyLower s = pyLower t) (x : ℚ) :
    ∀ l : List FixtureRow, interpSearch x s l = interpSearch x t l
  | [] => rfl
  | [a] => rfl
  | a :: b :: l2 => by
    rw [interpSearch_cons2, interpSearch_cons2]
    by_cases hc : a.gpm ≤ x ∧ x ≤ b.gpm
    · rw [if_pos hc, if_pos hc, bracketValue_mode_congr a b x h]
    · rw [if_neg hc, if_neg hc]
      exact interpSearch_mode_congr h x (b :: l2)

/-- `interpolate_fixture_units` only depends on the flush type through
`pyLower`. -/
theorem interp_mode_congr (g : ℚ) {s t : String} (h : pyLower s = pyLower t) :
    interpolate_fixture_units g s = interpolate_fixture_units g t := by
  rw [interpolate_fixture_units, interpolate_fixture_units]
  by_cases hg : g < (fixture_data.headD ⟨0, 0, none⟩).gpm ∨
      g > (fixture_data.getLastD ⟨0, 0, none⟩).gpm
  · rw [if_pos hg, if_pos hg]
  · rw [if_neg hg, if_neg hg]
    exact interpSearch_mode_congr h g fixture_data


/-- Claim C1 (code-bug evidence): when the modelled `fsolve` fails to
converge, neither `friction_factor_solver` (turbulent branch) nor
`solve_velocity_given_pressure_drop` reports a distinct failure outcome:
both return the stalled solver's last iterate (here `42`) as a plain
number, the `converged := false` flag being discarded, contrary to the
claim. -/
theorem nonconvergence_returns_plain_iterate :
    (stalledFsolve (colebrook_white id id 0.00006 (1.025 / 12) 3000)
        0.02).converged = false ∧
    friction_factor_solver id id stalledFsolve 3000 0.00006 1.025 0.02 = 42 ∧
    (stalledFsolve
        (friction_rate_residual id id stalledFsolve 25 1.025 0.00006 0.000012075)
        5).converged = false ∧
    solve_velocity_given_pressure_drop id id stalledFsolve 25 1.025 0.00006
      0.000012075 5 = 42 := by
  refine ⟨rfl, ?_, rfl, rfl⟩
  rw [friction_factor_solver, if_neg (by decide)]
  rfl

/-- Claim C2: in the laminar regime `re < 2000` the friction factor is the
closed form `64 / re`, with no iteration and independent of roughness,
diameter, initial guess and of the behaviour of the numeric primitives and
of `fsolve`. -/
theorem laminar_closed_form (np_sqrt np_log10 : ℚ → ℚ) (fsolve : Fsolve)
    (re epsilon diam_inch initial_guess : ℚ) (h : re < 2000) :
    friction_factor_solver np_sqrt np_log10 fsolve re epsilon diam_inch
      initial_guess = 64 / re := by
  rw [friction_factor_solver, if_pos h]

/-- Witness for claim C2 at `re = 1000`. -/
theorem laminar_closed_form_witness :
    (1000 : ℚ) < 2000 ∧
    friction_factor_solver id id (fun _ g => ⟨g, true⟩) 1000 0.00006 1.025 0.02
      = 64 / 1000 :=
  ⟨by decide, laminar_closed_form id id (fun _ g => ⟨g, true⟩) 1000 0.00006
    1.025 0.02 (by decide)⟩

/-- Claim C3 (code-bug evidence): the table flows are strictly increasing,
but the GPM-280 row carries tank and valve values 2583, sitting between
1500 (GPM 270) and 1668 (GPM 290), so neither the tank column nor the
defined valve entries are monotonically non-decreasing over all
consecutive rows. -/
theorem table_monotonicity_outlier :
    List.Chain' (fun r s : FixtureRow => r.gpm < s.gpm) fixture_data ∧
    fixture_data.get ⟨106, by decide⟩ = ⟨280, 2583, some 2583⟩ ∧
    fixture_data.get ⟨107, by decide⟩ = ⟨290, 1668, some 1668⟩ ∧
    ¬ List.Chain' (fun r s : FixtureRow => r.tank ≤ s.tank) fixture_data ∧
    ¬ List.Chain' (fun r s : FixtureRow => valveMono r.valve s.valve = true)
        fixture_data := by
  refine ⟨fixture_data_chain_gpm, by decide, by decide, ?_, ?_⟩
  · intro h
    exact absurd ((chainB_iff (fun r s : FixtureRow => r.tank ≤ s.tank)
      fixture_data).mpr h) (by decide)
  · intro h
    exact absurd ((chainB_iff
      (fun r s : FixtureRow => valveMono r.valve s.valve = true)
      fixture_data).mpr h) (by decide)

/-- Claim C4: for every in-range flow in tank mode the function returns the
floored linear interpolation over the tank column of a bracketing pair of
consecutive table rows, and the boundary and midpoint examples evaluate as
stated (`Rat.floor` is `math.floor` on exact rationals). -/
theorem tank_interpolation (g : ℚ) (h1 : 1 ≤ g) (h2 : g ≤ 500) :
    (∃ r1 r2 : FixtureRow, (r1, r2) ∈ fixture_data.zip fixture_data.tail ∧
      r1.gpm ≤ g ∧ g ≤ r2.gpm ∧
      interpolate_fixture_units g "tank" = .num (Rat.floor ((r1.tank : ℚ) +
        ((r2.tank : ℚ) - (r1.tank : ℚ)) * (g - r1.gpm) / (r2.gpm - r1.gpm)))) ∧
    interpolate_fixture_units 1 "tank" = .num 0 ∧
    interpolate_fixture_units 500 "tank" = .num 3620 ∧
    interpolate_fixture_units 22.5 "tank" = .num 35 := by
  refine ⟨?_, by decide, by decide, by decide⟩
  obtain ⟨r1, r2, hb, he⟩ := interp_found g "tank" h1 h2
  obtain ⟨hmem, hg1, hg2⟩ := findBracket_bounds hb
  exact ⟨r1, r2, hmem, hg1, hg2, by
    rw [he, bracketValue_tank r1 r2 g "tank" (by decide)]⟩

/-- Witness for claim C4 at `gpm = 22.5`. -/
theorem tank_interpolation_witness :
    interpolate_fixture_units 22.5 "tank" = .num 35 :=
  (tank_interpolation 22.5 (by decide) (by decide)).2.2.2

/-- Claim C5: in valve mode, when the selected bracketing pair has an
undefined valve entry on either side, the function returns the lower-bound
valve entry if that entry is defined and the explicit next-larger-pipe
indicator otherwise; it never treats the undefined entry as 0 and never
interpolates through it. -/
theorem valve_undefined_policy (g : ℚ) (r1 r2 : FixtureRow)
    (hb : findBracket g fixture_data = some (r1, r2))
    (hv : r1.valve = none ∨ r2.valve = none) :
    interpolate_fixture_units g "valve" =
      (match r1.valve with
        | some v1 => FUResult.num v1
        | none => FUResult.nextValidPipe) := by
  obtain ⟨hmem, hg1, hg2⟩ := findBracket_bounds hb
  obtain ⟨hm1, hm2⟩ := List.of_mem_zip hmem
  have h1 : 1 ≤ g := le_trans (fixture_data_gpm_bounds r1 hm1).1 hg1
  have h2 : g ≤ 500 :=
    le_trans hg2 (fixture_data_gpm_bounds r2 (List.mem_of_mem_tail hm2)).2
  rw [interp_eq_bracketValue g "valve" hb h1 h2, bracketValue,
    if_neg (by decide), if_pos (by decide)]
  rcases h1v : r1.valve with _ | v1 <;> rcases h2v : r2.valve with _ | v2 <;>
    simp_all

/-- Witness for claim C5 at `gpm = 10`, bracketed by the rows at 9 and 10
GPM, both with undefined valve entries. -/
theorem valve_undefined_policy_witness :
    findBracket 10 fixture_data = some (⟨9, 12, none⟩, ⟨10, 13, none⟩) ∧
    interpolate_fixture_units 10 "valve" = .nextValidPipe :=
  ⟨by decide, valve_undefined_policy 10 ⟨9, 12, none⟩ ⟨10, 13, none⟩ (by decide)
    (Or.inl rfl)⟩

/-- Claim C6: flows strictly below 1 GPM or strictly above 500 GPM give the
explicit out-of-range indicator in every mode; an unrecognised flush type
with an in-range flow gives the distinct invalid-flush-type error; and both
indicators are distinguishable from every numeric result. -/
theorem out_of_range_and_invalid_mode (g : ℚ) (ft : String) :
    ((g < 1 ∨ g > 500) → interpolate_fixture_units g ft = .outOfRange) ∧
    (1 ≤ g → g ≤ 500 → pyLower ft ≠ "tank" → pyLower ft ≠ "valve" →
      interpolate_fixture_units g ft = .invalidFlushType) ∧
    (∀ n : ℤ, FUResult.outOfRange ≠ .num n ∧ FUResult.invalidFlushType ≠ .num n ∧
      FUResult.invalidFlushType ≠ .outOfRange) := by
  refine ⟨?_, interp_invalid_mode g ft, fun n => ⟨nofun, nofun, nofun⟩⟩
  intro hg
  have hguard : g < (fixture_data.headD ⟨0, 0, none⟩).gpm ∨
      g > (fixture_data.getLastD ⟨0, 0, none⟩).gpm := by
    rw [fixture_data_head, fixture_data_last]
    exact hg
  rw [interpolate_fixture_units, if_pos hguard]

/-- Witness for claim C6 at `gpm = 0.5`, `gpm = 600` and flush type
`"Faucet"`. -/
theorem out_of_range_and_invalid_mode_witness :
    interpolate_fixture_units 0.5 "tank" = .outOfRange ∧
    interpolate_fixture_units 600 "valve" = .outOfRange ∧
    interpolate_fixture_units 10 "Faucet" = .invalidFlushType :=
  ⟨(out_of_range_and_invalid_mode 0.5 "tank").1 (Or.inl (by decide)),
   (out_of_range_and_invalid_mode 600 "valve").1 (Or.inr (by decide)),
   (out_of_range_and_invalid_mode 10 "Faucet").2.1 (by decide) (by decide)
     (by decide) (by decide)⟩

/-- Claim C7: the Darcy-Weisbach head loss per 100 ft is exactly
`f * 100 * v ^ 2 / (D_ft * 2 * g)` with `D_ft = diam_inch / 12` and the
gravitational constant fixed at `32.174 = 32174 / 1000`. -/
theorem darcy_weisbach_formula (f velocity diam_inch : ℚ) :
    darcy_weisbach_pressure_drop f velocity diam_inch =
      f * 100 * velocity ^ 2 / (diam_inch / 12 * 2 * (32174 / 1000)) := by
  rw [darcy_weisbach_pressure_drop, show GRAVITY = 32174 / 1000 from by decide]

/-- Claim C9: a flow equal to an interior breakpoint is bracketed by the
pair ENDING at that breakpoint (the first pair passing the scan's test); in
particular GPM 22 in valve mode hits the pair (21, 22), whose lower valve
entry is undefined, so the next-larger-pipe indicator is returned instead
of the valve value 5 stored at the GPM-22 row. -/
theorem breakpoint_left_bracket :
    interpolate_fixture_units 22 "valve" = .nextValidPipe ∧
    ∀ (i : ℕ) (h2 : i + 1 < fixture_data.length),
      findBracket ((fixture_data.get ⟨i + 1, h2⟩).gpm) fixture_data =
        some (fixture_data.get ⟨i, Nat.lt_of_succ_lt h2⟩,
          fixture_data.get ⟨i + 1, h2⟩) :=
  ⟨by decide, fun i h2 =>
    findBracket_at_index fixture_data fixture_data_chain_gpm i h2⟩

/-- Witness for claim C9 at the interior breakpoint of index 2 (GPM 3). -/
theorem breakpoint_left_bracket_witness :
    findBracket ((fixture_data.get ⟨2, by decide⟩).gpm) fixture_data =
      some (fixture_data.get ⟨1, by decide⟩, fixture_data.get ⟨2, by decide⟩) :=
  breakpoint_left_bracket.2 1 (by decide)

/-- Claim C10: mode selection is case-insensitive through `.lower()`: any
string lowering to "tank" behaves exactly like "tank", likewise "valve",
and for in-range flows the invalid-flush-type error occurs exactly for the
strings lowering to neither. -/
theorem mode_case_insensitive (s : String) (g : ℚ) :
    (pyLower s = "tank" →
      interpolate_fixture_units g s = interpolate_fixture_units g "tank") ∧
    (pyLower s = "valve" →
      interpolate_fixture_units g s = interpolate_fixture_units g "valve") ∧
    (1 ≤ g → g ≤ 500 →
      (interpolate_fixture_units g s = .invalidFlushType ↔
        pyLower s ≠ "tank" ∧ pyLower s ≠ "valve")) := by
  refine ⟨fun h => interp_mode_congr g (by rw [h]; decide),
    fun h => interp_mode_congr g (by rw [h]; decide), fun h1 h2 => ⟨?_, ?_⟩⟩
  · intro he
    obtain ⟨r1, r2, hb, heq⟩ := interp_found g s h1 h2
    constructor
    · intro ht
      rw [heq, bracketValue_tank r1 r2 g s ht] at he
      exact FUResult.noConfusion he
    · intro hvv
      rw [heq] at he
      exact bracketValue_valve_ne_invalid r1 r2 g s hvv he
  · intro hp
    exact interp_invalid_mode g s h1 h2 hp.1 hp.2

/-- Witness for claim C10 at `gpm = 30`. -/
theorem mode_case_insensitive_witness :
    interpolate_fixture_units 30 "TANK" = interpolate_fixture_units 30 "tank" ∧
    interpolate_fixture_units 30 "VaLvE" = interpolate_fixture_units 30 "valve" ∧
    (interpolate_fixture_units 30 "faucet" = .invalidFlushType ↔
      pyLower "faucet" ≠ "tank" ∧ pyLower "faucet" ≠ "valve") :=
  ⟨(mode_case_insensitive "TANK" 30).1 (by decide),
   (mode_case_insensitive "VaLvE" 30).2.1 (by decide),
   (mode_case_insensitive "faucet" 30).2.2 (by decide) (by decide)⟩

end PipeSizer
